import Mathlib

/-!
Verification of the restclient-cpp facade (src/source/restclient.cpp,
src/include/restclient-cpp/restclient.h).

The library configures one libcurl easy session per call, runs a blocking
transfer, copies bytes out of the write/header callbacks into a `Response`
struct, and frees the engine resources.  The embedding below models the
external engine (libcurl) as an oracle `Engine` describing one call's
observable behaviour: whether `curl_easy_init` succeeds, the `CURLcode`
returned by `curl_easy_perform`, the status code read via
`CURLINFO_RESPONSE_CODE`, and the sequences of header lines and body chunks
the engine pushes into the two callbacks during the transfer.  Strings are
`List Char`; the `std::map` header container is an association list with
overwriting insert; opaque handles (`CURL*`, `curl_slist*`) are booleans
recording null versus non-null, and the cleanup function additionally
reports how many times each release primitive ran.
-/

namespace RestClient

/-- Convert a string literal to the `List Char` byte-string representation. -/
def str (s : String) : List Char := s.data

/-- `std::isspace` in the default locale: space, tab, newline, vertical tab,
form feed, carriage return. -/
def isSpaceChar (c : Char) : Bool :=
  c = ' ' || c = '\t' || c = '\n' || c = '\x0b' || c = '\x0c' || c = '\r'

/-- `RestClient::ltrim`: erase leading whitespace. -/
def ltrim (s : List Char) : List Char := s.dropWhile isSpaceChar

/-- `RestClient::rtrim`: erase trailing whitespace. -/
def rtrim (s : List Char) : List Char := (s.reverse.dropWhile isSpaceChar).reverse

/-- `RestClient::trim`: `ltrim(rtrim(s))`. -/
def trim (s : List Char) : List Char := ltrim (rtrim s)

/-- `RestClient::headermap`, a `std::map<std::string, std::string>`, embedded
as an association list whose keys are unique; `mapInsert` realises
`m[k] = v` (overwrite on repeated key). -/
abbrev headermap := List (List Char × List Char)

/-- `m[k] = v` on a `std::map`: overwrite the value of an existing key,
otherwise add the pair. -/
def mapInsert : headermap → List Char → List Char → headermap
  | [], k, v => [(k, v)]
  | (k0, v0) :: rest, k, v =>
      if k0 = k then (k, v) :: rest else (k0, v0) :: mapInsert rest k v

/-- `m.find(k)` on a `std::map`: the stored value, if any. -/
def mapFind : headermap → List Char → Option (List Char)
  | [], _ => none
  | (k0, v0) :: rest, k => if k0 = k then some v0 else mapFind rest k

/-- `RestClient::Request`: target URL plus header map. -/
structure Request where
  headers : headermap
  url : List Char
deriving DecidableEq

/-- `RestClient::Response`.  `file` is the optional output sink
(`std::ostream*`): `none` models a null pointer and `some w` an attached
sink whose written bytes so far are `w`.  `curl` and `headerChunk` record
whether the corresponding opaque handle is non-null. -/
structure Response where
  code : Int
  body : List Char
  headers : headermap
  file : Option (List Char)
  curl : Bool
  headerChunk : Bool
deriving DecidableEq

/-- The `Response_s()` constructor: code 0, empty body, empty headers, null
file, null curl handle, null header chunk. -/
def newResponse : Response :=
  { code := 0, body := [], headers := [], file := none,
    curl := false, headerChunk := false }

/-- `RestClient::FormType`. -/
inductive FormType
  | kString
  | kFile
deriving DecidableEq

/-- `RestClient::FormItem`. -/
structure FormItem where
  value : List Char
  type : FormType
deriving DecidableEq

/-- The `CURLformoption` selected per form item in `RestClient::Post`. -/
inductive CURLformoption
  | nothingOpt
  | fileOpt
  | copycontents
deriving DecidableEq

/-- The `CURLoption` keys the library sets on the easy handle. -/
inductive CurlOption
  | httpauth
  | userpwd
  | httpheader
  | useragent
  | nosignal
  | urlopt
  | writefunction
  | writedata
  | headerfunction
  | headerdata
  | xferinfofunction
  | xferinfodata
  | noprogress
  | httppost
deriving DecidableEq

/-- Values passed to `curl_easy_setopt`: numbers, strings, the header string
list, the multipart form list, or an opaque pointer (callback or userdata). -/
inductive OptValue
  | num (n : Int)
  | strval (s : List Char)
  | strlist (l : List (List Char))
  | formlist (l : List (List Char × CURLformoption × List Char))
  | ptr
deriving DecidableEq

/-- `RestClient::kDefaultUserAgent`, `"restclient-cpp-mfr/" VERSION`.  The
`VERSION` macro comes from `meta.h`, which is not part of the sources; a
placeholder suffix stands in for it and no property depends on its text. -/
def kDefaultUserAgent : List Char := str "restclient-cpp-mfr/VERSION"

/-- The `"User-Agent"` header key. -/
def uaKey : List Char := str "User-Agent"

/-- The header string list built in `CurlSharedEasyInit`: one
`"Name: Value"` entry per map entry, via `curl_slist_append`. -/
def headerChunkOf (headers : headermap) : List (List Char) :=
  headers.map (fun p => p.1 ++ str ": " ++ p.2)

/-- Result of `RestClient::CurlSharedEasyInit`: the boolean return value, the
updated response, the options set on the easy handle, and the header
string list built into the function's local `headerChunk` variable.  Note
that the source stores that list only in the local variable — it is never
assigned to `response.headerChunk`. -/
structure InitResult where
  retVal : Bool
  response : Response
  opts : List (CurlOption × OptValue)
  localHeaderChunk : List (List Char)
deriving DecidableEq

/-- `RestClient::CurlSharedEasyInit`.  `userPassword` is the process-wide
`RestClient::UserPassword` string; `initOk` is whether `curl_easy_init`
returns a non-null handle. -/
def CurlSharedEasyInit (userPassword : List Char) (initOk : Bool)
    (request : Request) (response : Response) : InitResult :=
  if initOk then
    let response := { response with curl := true }
    let authOpts : List (CurlOption × OptValue) :=
      if userPassword.length > 0 then
        [(CurlOption.httpauth, OptValue.num 1),
         (CurlOption.userpwd, OptValue.strval userPassword)]
      else []
    let headerOpts : List (CurlOption × OptValue) :=
      if request.headers.length > 0 then
        [(CurlOption.httpheader, OptValue.strlist (headerChunkOf request.headers))] ++
          (if mapFind request.headers uaKey = none then
            [(CurlOption.useragent, OptValue.strval kDefaultUserAgent)]
          else [])
      else [(CurlOption.useragent, OptValue.strval kDefaultUserAgent)]
    let localHeaderChunk :=
      if request.headers.length > 0 then headerChunkOf request.headers else []
    { retVal := true
      response := response
      opts := authOpts ++ headerOpts ++
        [(CurlOption.nosignal, OptValue.num 1),
         (CurlOption.urlopt, OptValue.strval request.url),
         (CurlOption.writefunction, OptValue.ptr),
         (CurlOption.writedata, OptValue.ptr),
         (CurlOption.headerfunction, OptValue.ptr),
         (CurlOption.headerdata, OptValue.ptr)]
      localHeaderChunk := localHeaderChunk }
  else
    { retVal := false, response := response, opts := [], localHeaderChunk := [] }

/-- How many times `CurlSharedEasyCleanUp` invoked each release primitive:
`curl_easy_cleanup` and `curl_slist_free_all`. -/
structure CleanupStats where
  easyCleanupCalls : Nat
  slistFreeCalls : Nat
deriving DecidableEq

/-- `RestClient::CurlSharedEasyCleanUp`: free the easy handle if non-null,
free `response.headerChunk` if non-null, then null both fields. -/
def CurlSharedEasyCleanUp (response : Response) : Response × CleanupStats :=
  let easy : Nat := if response.curl then 1 else 0
  let slist : Nat := if response.headerChunk then 1 else 0
  ({ response with curl := false, headerChunk := false },
   { easyCleanupCalls := easy, slistFreeCalls := slist })

/-- `RestClient::CurlWriteCallback` on one chunk.  `httpCode` is the value
`curl_easy_getinfo(CURLINFO_RESPONSE_CODE)` yields at the moment of the
callback. -/
def CurlWriteCallback (data : List Char) (httpCode : Int) (r : Response) : Response :=
  if r.file.isSome ∧ httpCode = 200 then
    { r with file := r.file.map (fun w => w ++ data) }
  else
    { r with body := r.body ++ data }

/-- `std::string::find_first_of` for a single sought character class,
returning the first index whose character satisfies `p`. -/
def findFirstOf (p : Char → Bool) : List Char → Option Nat
  | [] => none
  | c :: rest => if p c then some 0 else Option.map (fun n => n + 1) (findFirstOf p rest)

/-- The header-map update performed by `RestClient::CurlHeaderCallback` on
one raw header line. -/
def CurlHeaderCallbackMap (data : List Char) (headers : headermap) : headermap :=
  match findFirstOf (fun c => c = ':') data with
  | none =>
      let header := trim data
      if header.length = 0 then headers
      else mapInsert headers header (str "present")
  | some seperator =>
      let key := trim (List.take seperator data)
      let value := trim (List.drop (seperator + 1) data)
      mapInsert headers key value

/-- `RestClient::CurlHeaderCallback` acting on the response object. -/
def CurlHeaderCallback (data : List Char) (r : Response) : Response :=
  { r with headers := CurlHeaderCallbackMap data r.headers }

/-- `RestClient::UploadObject`: the `data` pointer is modelled as an index
into the original caller buffer, `length` is the remaining byte count. -/
structure UploadObject where
  data : Nat
  length : Nat
deriving DecidableEq

/-- `RestClient::CurlReadCallback`: copy
`min(u->length, size*nmemb)` bytes from the current pointer, advance the
pointer, shrink the remaining length, return the copied size.  The result is
(bytes copied out, updated upload object, returned size). -/
def CurlReadCallback (buffer : List Char) (size nmemb : Nat) (u : UploadObject) :
    List Char × UploadObject × Nat :=
  let curl_size := size * nmemb
  let copy_size := if u.length < curl_size then u.length else curl_size
  let copied := List.take copy_size (List.drop u.data buffer)
  (copied, { data := u.data + copy_size, length := u.length - copy_size }, copy_size)

/-- Repeated engine invocations of the read callback with the given sequence
of `(size, nmemb)` requests; returns the final upload object and the total
number of bytes returned across all invocations. -/
def runReadCallback (buffer : List Char) : List (Nat × Nat) → UploadObject → UploadObject × Nat
  | [], u => (u, 0)
  | r :: rest, u =>
      let step := CurlReadCallback buffer r.1 r.2 u
      let next := runReadCallback buffer rest step.2.1
      (next.1, step.2.2 + next.2)

/-- Total bytes requested by a sequence of read-callback invocations. -/
def sumReqs (reqs : List (Nat × Nat)) : Nat :=
  (reqs.map (fun r => r.1 * r.2)).sum

/-- One call's observable behaviour of the external transfer engine:
whether `curl_easy_init` succeeds, the `CURLcode` of `curl_easy_perform`
(`0` is `CURLE_OK`), the status code later read via
`CURLINFO_RESPONSE_CODE`, the raw header lines pushed into the header
callback, and the body chunks pushed into the write callback (each paired
with the status code observable at that delivery). -/
structure Engine where
  initOk : Bool
  performResult : Nat
  httpCode : Int
  headerLines : List (List Char)
  deliveries : List (List Char × Int)
deriving DecidableEq

/-- The engine delivering every header line to `CurlHeaderCallback`. -/
def runHeaderLines : List (List Char) → Response → Response
  | [], r => r
  | l :: rest, r => runHeaderLines rest (CurlHeaderCallback l r)

/-- The engine delivering every body chunk to `CurlWriteCallback`. -/
def runWrites : List (List Char × Int) → Response → Response
  | [], r => r
  | d :: rest, r => runWrites rest (CurlWriteCallback d.1 d.2 r)

/-- The callback side effects of `curl_easy_perform`. -/
def performTransfer (e : Engine) (r : Response) : Response :=
  runWrites e.deliveries (runHeaderLines e.headerLines r)

/-- The full observable outcome of one `Get`/`Post` call: the returned
response, the release counts from cleanup, the options set on the handle,
and the header string list left behind by `CurlSharedEasyInit`'s local
variable. -/
structure CallResult where
  response : Response
  stats : CleanupStats
  opts : List (CurlOption × OptValue)
  leakedHeaderChunk : List (List Char)
deriving DecidableEq

/-- `RestClient::Get(request, outputFile, transferCallback)`.  `outputFile`
and `transferCallback` record whether the two pointer arguments are
non-null. -/
def Get (userPassword : List Char) (e : Engine) (request : Request)
    (outputFile : Bool) (transferCallback : Bool) : CallResult :=
  let response := newResponse
  let ini := CurlSharedEasyInit userPassword e.initOk request response
  if ini.retVal then
    let opts := ini.opts ++
      (if transferCallback then
        [(CurlOption.xferinfofunction, OptValue.ptr),
         (CurlOption.xferinfodata, OptValue.ptr),
         (CurlOption.noprogress, OptValue.num 0)]
      else [])
    let r := if outputFile then { ini.response with file := some [] } else ini.response
    let r := performTransfer e r
    let r :=
      if e.performResult ≠ 0 then { r with body := str "Failed to query.", code := -1 }
      else { r with code := e.httpCode }
    let cleaned := CurlSharedEasyCleanUp r
    { response := cleaned.1, stats := cleaned.2, opts := opts,
      leakedHeaderChunk := ini.localHeaderChunk }
  else
    { response := ini.response, stats := { easyCleanupCalls := 0, slistFreeCalls := 0 },
      opts := ini.opts, leakedHeaderChunk := ini.localHeaderChunk }

/-- The `CURLformoption` chosen by the `switch` in `RestClient::Post`. -/
def formOptionOf : FormType → CURLformoption
  | FormType.kFile => CURLformoption.fileOpt
  | FormType.kString => CURLformoption.copycontents

/-- The multipart list built by the `curl_formadd` loop in
`RestClient::Post`. -/
def buildFormPost (form : List (List Char × FormItem)) :
    List (List Char × CURLformoption × List Char) :=
  form.map (fun p => (p.1, formOptionOf p.2.type, p.2.value))

/-- `RestClient::Post(request, form)`. -/
def Post (userPassword : List Char) (e : Engine) (request : Request)
    (form : List (List Char × FormItem)) : CallResult :=
  let response := newResponse
  let ini := CurlSharedEasyInit userPassword e.initOk request response
  if ini.retVal then
    let opts := ini.opts ++
      (if form.length > 0 then
        [(CurlOption.httppost, OptValue.formlist (buildFormPost form))]
      else [])
    let r := performTransfer e ini.response
    let r :=
      if e.performResult ≠ 0 then { r with body := str "Failed to query.", code := -1 }
      else { r with code := e.httpCode }
    let cleaned := CurlSharedEasyCleanUp r
    { response := cleaned.1, stats := cleaned.2, opts := opts,
      leakedHeaderChunk := ini.localHeaderChunk }
  else
    { response := ini.response, stats := { easyCleanupCalls := 0, slistFreeCalls := 0 },
      opts := ini.opts, leakedHeaderChunk := ini.localHeaderChunk }

/-- `RestClient::SetAuth`: clear the process-wide credential, then append
`username + ":" + password`. -/
def SetAuth (username password : List Char) (_userPassword : List Char) : List Char :=
  ([] : List Char) ++ (username ++ str ":" ++ password)

/-- `RestClient::ClearAuth`: clear the process-wide credential. -/
def ClearAuth (_userPassword : List Char) : List Char := []

end RestClient

namespace RestClient

/-! ### Helper lemmas about the header map and the callback folds -/

/-- Inserting a key stores exactly that value, overwriting a prior one. -/
theorem mapFind_mapInsert_self (m : headermap) (k v : List Char) :
    mapFind (mapInsert m k v) k = some v := by
  induction m with
  | nil => simp [mapInsert, mapFind]
  | cons p rest ih =>
      by_cases h : p.1 = k
      · simp [mapInsert, mapFind, h]
      · simp [mapInsert, mapFind, h, ih]

/-- A found key-value pair is a member of the association list. -/
theorem mem_of_mapFind (m : headermap) (k v : List Char)
    (h : mapFind m k = some v) : (k, v) ∈ m := by
  induction m with
  | nil => simp [mapFind] at h
  | cons p rest ih =>
      by_cases hk : p.1 = k
      · simp [mapFind, hk] at h
        have hp : p = (k, v) := by
          obtain ⟨p1, p2⟩ := p
          simp only at hk h
          rw [hk, h]
        rw [hp]
        exact List.mem_cons_self _ _
      · simp [mapFind, hk] at h
        exact List.mem_cons_of_mem _ (ih h)

/-- A found key makes the header map non-empty. -/
theorem length_pos_of_mapFind (m : headermap) (k v : List Char)
    (h : mapFind m k = some v) : 0 < m.length :=
  List.length_pos.mpr (List.ne_nil_of_mem (mem_of_mapFind m k v h))

/-- Every map entry contributes its formatted line to the header chunk. -/
theorem mem_headerChunkOf (m : headermap) (k v : List Char)
    (h : (k, v) ∈ m) : (k ++ str ": " ++ v) ∈ headerChunkOf m := by
  exact List.mem_map.mpr ⟨(k, v), h, rfl⟩

/-- The write callback never touches the headers, the status code, or the
two engine handles. -/
theorem CurlWriteCallback_preserves (data : List Char) (code : Int) (r : Response) :
    (CurlWriteCallback data code r).headers = r.headers ∧
    (CurlWriteCallback data code r).code = r.code ∧
    (CurlWriteCallback data code r).curl = r.curl ∧
    (CurlWriteCallback data code r).headerChunk = r.headerChunk := by
  unfold CurlWriteCallback
  split <;> simp

/-- Folding the write callback never touches the headers, the status code,
or the two engine handles. -/
theorem runWrites_preserves (ds : List (List Char × Int)) (r : Response) :
    (runWrites ds r).headers = r.headers ∧
    (runWrites ds r).code = r.code ∧
    (runWrites ds r).curl = r.curl ∧
    (runWrites ds r).headerChunk = r.headerChunk := by
  induction ds generalizing r with
  | nil => simp [runWrites]
  | cons d rest ih =>
      have hstep := CurlWriteCallback_preserves d.1 d.2 r
      have hrest := ih (CurlWriteCallback d.1 d.2 r)
      simp only [runWrites]
      exact ⟨hrest.1.trans hstep.1, hrest.2.1.trans hstep.2.1,
        hrest.2.2.1.trans hstep.2.2.1, hrest.2.2.2.trans hstep.2.2.2⟩

/-- With no sink attached, folding the write callback appends every chunk,
in delivery order, to the body, and the sink stays detached. -/
theorem runWrites_no_sink (ds : List (List Char × Int)) (r : Response)
    (h : r.file = none) :
    (runWrites ds r).body = r.body ++ (ds.map Prod.fst).flatten ∧
    (runWrites ds r).file = none := by
  induction ds generalizing r with
  | nil => simp [runWrites, h]
  | cons d rest ih =>
      have hbranch : CurlWriteCallback d.1 d.2 r = { r with body := r.body ++ d.1 } := by
        unfold CurlWriteCallback
        split
        · rename_i hc
          rw [h] at hc
          simp at hc
        · rfl
      have hrec := ih { r with body := r.body ++ d.1 } (by simp [h])
      refine ⟨?_, ?_⟩
      · simp only [runWrites, hbranch, hrec.1]
        simp [List.append_assoc]
      · simp only [runWrites, hbranch]
        exact hrec.2

/-- With a sink attached, chunks delivered while the observed status is 200
go to the sink: the body is untouched and the sink stays attached. -/
theorem runWrites_sink_all200 (ds : List (List Char × Int)) (r : Response)
    (hf : r.file.isSome = true) (hc : ∀ p ∈ ds, p.2 = 200) :
    (runWrites ds r).body = r.body ∧ (runWrites ds r).file.isSome = true := by
  induction ds generalizing r with
  | nil => simp [runWrites, hf]
  | cons d rest ih =>
      have hd : d.2 = 200 := hc d (List.mem_cons_self d rest)
      have hbranch : CurlWriteCallback d.1 d.2 r =
          { r with file := r.file.map (fun w => w ++ d.1) } := by
        unfold CurlWriteCallback
        split
        · rfl
        · rename_i hcontra
          exact absurd ⟨hf, hd⟩ hcontra
      have hf2 : ({ r with file := r.file.map (fun w => w ++ d.1) } : Response).file.isSome = true := by
        simp [Option.isSome_map, hf]
      have := ih { r with file := r.file.map (fun w => w ++ d.1) } hf2
        (fun p hp => hc p (List.mem_cons_of_mem d hp))
      simp only [runWrites, hbranch]
      exact ⟨this.1, this.2⟩

/-- The header callback never touches the body, the sink, the status code,
or the two engine handles. -/
theorem runHeaderLines_preserves (ls : List (List Char)) (r : Response) :
    (runHeaderLines ls r).body = r.body ∧
    (runHeaderLines ls r).file = r.file ∧
    (runHeaderLines ls r).code = r.code ∧
    (runHeaderLines ls r).curl = r.curl ∧
    (runHeaderLines ls r).headerChunk = r.headerChunk := by
  induction ls generalizing r with
  | nil => simp [runHeaderLines]
  | cons l rest ih =>
      have := ih (CurlHeaderCallback l r)
      simp only [runHeaderLines]
      simpa [CurlHeaderCallback] using this

/-- The transfer callbacks never touch the status code or the two engine
handles, and leave the sink attachment state unchanged. -/
theorem performTransfer_preserves (e : Engine) (r : Response) :
    (performTransfer e r).code = r.code ∧
    (performTransfer e r).curl = r.curl ∧
    (performTransfer e r).headerChunk = r.headerChunk := by
  unfold performTransfer
  have hh := runHeaderLines_preserves e.headerLines r
  have hw := runWrites_preserves e.deliveries (runHeaderLines e.headerLines r)
  exact ⟨hw.2.1.trans hh.2.2.1, hw.2.2.1.trans hh.2.2.2.1, hw.2.2.2.trans hh.2.2.2.2⟩

end RestClient

namespace RestClient

/-! ### Helper lemmas about the read callback -/

/-- The conditional copy size in `CurlReadCallback` is a minimum. -/
theorem copySize_eq_min (a b : Nat) : (if a < b then a else b) = min a b := by
  split <;> omega

/-- The total number of bytes returned across a sequence of read-callback
invocations is the minimum of the remaining length and the total requested. -/
theorem runReadCallback_total (buffer : List Char) (reqs : List (Nat × Nat))
    (u : UploadObject) :
    (runReadCallback buffer reqs u).2 = min u.length (sumReqs reqs) := by
  induction reqs generalizing u with
  | nil => simp [runReadCallback, sumReqs]
  | cons req rest ih =>
      simp only [runReadCallback, CurlReadCallback, copySize_eq_min]
      rw [ih]
      simp only [sumReqs, List.map_cons, List.sum_cons]
      simp only [sumReqs] at *
      omega

/-- The remaining length after a sequence of read-callback invocations. -/
theorem runReadCallback_length (buffer : List Char) (reqs : List (Nat × Nat))
    (u : UploadObject) :
    (runReadCallback buffer reqs u).1.length = u.length - sumReqs reqs := by
  induction reqs generalizing u with
  | nil => simp [runReadCallback, sumReqs]
  | cons req rest ih =>
      simp only [runReadCallback, CurlReadCallback, copySize_eq_min]
      rw [ih]
      simp only [sumReqs, List.map_cons, List.sum_cons]
      omega

end RestClient

namespace RestClient

/-! ### Claim theorems -/

/-- C4: For every raw header line delivered to the header callback: if the
line contains no colon, it is trimmed of whitespace and, if empty, ignored
(no entry added), otherwise recorded in the header map with the fixed
sentinel value "present"; if the line contains a colon, the key is the
trimmed substring before the first colon, the value is the trimmed substring
after it, and the entry key -> value is stored, overwriting any prior value
for a repeated key (the map is arbitrary, so the stored value wins over any
earlier one). -/
theorem C4_header_line_parsing (line : List Char) (hs : headermap) :
    (findFirstOf (fun c => c = ':') line = none →
      (trim line = [] → CurlHeaderCallbackMap line hs = hs) ∧
      (trim line ≠ [] →
        mapFind (CurlHeaderCallbackMap line hs) (trim line) = some (str "present"))) ∧
    (∀ sep, findFirstOf (fun c => c = ':') line = some sep →
      mapFind (CurlHeaderCallbackMap line hs) (trim (List.take sep line)) =
        some (trim (List.drop (sep + 1) line))) := by
  constructor
  · intro hnone
    constructor
    · intro hempty
      unfold CurlHeaderCallbackMap
      rw [hnone]
      simp [hempty]
    · intro hne
      unfold CurlHeaderCallbackMap
      rw [hnone]
      simp only [List.length_eq_zero]
      rw [if_neg hne]
      exact mapFind_mapInsert_self hs (trim line) (str "present")
  · intro sep hsep
    unfold CurlHeaderCallbackMap
    rw [hsep]
    exact mapFind_mapInsert_self hs _ _

/-- Witness for C4 at concrete inputs: a line with a colon parses into the
trimmed key/value pair, overwriting a prior value for the repeated key. -/
theorem C4_header_line_parsing_witness :
    findFirstOf (fun c => c = ':') (str "Content-Type: text/plain") = some 12 ∧
    mapFind
      (CurlHeaderCallbackMap (str "Content-Type: text/plain")
        [(str "Content-Type", str "old")])
      (trim (List.take 12 (str "Content-Type: text/plain"))) =
      some (trim (List.drop 13 (str "Content-Type: text/plain"))) :=
  ⟨by decide,
   (C4_header_line_parsing (str "Content-Type: text/plain")
     [(str "Content-Type", str "old")]).2 12 (by decide)⟩

/-- C5: For every body chunk delivered to the body callback: if an output
sink is attached to the response and the current status code equals the
success code 200, the chunk's bytes are written to the sink (body
untouched); otherwise the chunk's bytes are appended to the in-memory body
buffer (sink untouched). -/
theorem C5_write_callback_dispatch (chunk : List Char) (code : Int) (r : Response) :
    (r.file.isSome = true → code = 200 →
      (CurlWriteCallback chunk code r).file = some (r.file.getD [] ++ chunk) ∧
      (CurlWriteCallback chunk code r).body = r.body) ∧
    (¬ (r.file.isSome = true ∧ code = 200) →
      (CurlWriteCallback chunk code r).body = r.body ++ chunk ∧
      (CurlWriteCallback chunk code r).file = r.file) := by
  constructor
  · intro hf hc
    obtain ⟨w, hw⟩ := Option.isSome_iff_exists.mp hf
    unfold CurlWriteCallback
    rw [if_pos ⟨hf, hc⟩]
    simp [hw]
  · intro hn
    unfold CurlWriteCallback
    rw [if_neg hn]
    simp

/-- Witness for C5 at concrete inputs: with a sink and status 200 the chunk
goes to the sink; with status 404 it goes to the body. -/
theorem C5_write_callback_dispatch_witness :
    ((CurlWriteCallback (str "ab") 200
        { newResponse with file := some (str "x") }).file =
      some (str "x" ++ str "ab") ∧
      (CurlWriteCallback (str "ab") 200
        { newResponse with file := some (str "x") }).body = [] ) ∧
    ((CurlWriteCallback (str "ab") 404
        { newResponse with file := some (str "x") }).body = [] ++ str "ab" ∧
      (CurlWriteCallback (str "ab") 404
        { newResponse with file := some (str "x") }).file = some (str "x")) :=
  ⟨(C5_write_callback_dispatch (str "ab") 200
      { newResponse with file := some (str "x") }).1 (by decide) (by decide),
   (C5_write_callback_dispatch (str "ab") 404
      { newResponse with file := some (str "x") }).2 (by decide)⟩

/-- The full behaviour of the upload pull callback stated over one
invocation from state `u` and a whole request sequence from the initial
state over a buffer of length `L`: per-invocation return of
`min(remaining, requested)` with offset advance and length shrink, in-bounds
reads with the offset/remaining invariant preserved, zero returns after
exhaustion, and a total of `min(L, total requested)` bytes — hence exactly
`L` bytes once the requests cover the buffer, and 0 forever afterwards. -/
def ReadCallbackBehaviour (buffer : List Char) (reqs : List (Nat × Nat))
    (size nmemb : Nat) (u : UploadObject) : Prop :=
  ((CurlReadCallback buffer size nmemb u).2.2 = min u.length (size * nmemb) ∧
    (CurlReadCallback buffer size nmemb u).2.1.data =
      u.data + (CurlReadCallback buffer size nmemb u).2.2 ∧
    (CurlReadCallback buffer size nmemb u).2.1.length =
      u.length - (CurlReadCallback buffer size nmemb u).2.2) ∧
  (u.data + (CurlReadCallback buffer size nmemb u).2.2 ≤ buffer.length ∧
    (CurlReadCallback buffer size nmemb u).1.length =
      (CurlReadCallback buffer size nmemb u).2.2 ∧
    (CurlReadCallback buffer size nmemb u).2.1.data +
      (CurlReadCallback buffer size nmemb u).2.1.length = buffer.length) ∧
  (u.length = 0 →
    (CurlReadCallback buffer size nmemb u).2.2 = 0 ∧
    (CurlReadCallback buffer size nmemb u).2.1 = u) ∧
  ((runReadCallback buffer reqs ⟨0, buffer.length⟩).2 =
    min buffer.length (sumReqs reqs)) ∧
  (buffer.length ≤ sumReqs reqs →
    (runReadCallback buffer reqs ⟨0, buffer.length⟩).2 = buffer.length ∧
    (runReadCallback buffer reqs ⟨0, buffer.length⟩).1.length = 0)

/-- C7: The upload pull callback, invoked with a remaining-length/cursor
pair over a buffer of length L and any sequence of requested chunk sizes,
returns min(remaining, requested) bytes per invocation copied from the
current offset, advances the offset and shrinks remaining by that amount,
returns exactly L total bytes across all invocations (once the requests
cover the buffer), then returns 0 forever after exhaustion, and never reads
past the original buffer. -/
theorem C7_read_callback (buffer : List Char) (reqs : List (Nat × Nat))
    (size nmemb : Nat) (u : UploadObject)
    (hinv : u.data + u.length = buffer.length) :
    ReadCallbackBehaviour buffer reqs size nmemb u := by
  have hcopy : (CurlReadCallback buffer size nmemb u).2.2 =
      min u.length (size * nmemb) := by
    simp [CurlReadCallback, copySize_eq_min]
  refine ⟨⟨hcopy, by simp [CurlReadCallback], by simp [CurlReadCallback]⟩, ?_, ?_, ?_, ?_⟩
  · refine ⟨?_, ?_, ?_⟩
    · simp only [CurlReadCallback, copySize_eq_min]
      omega
    · simp only [CurlReadCallback, copySize_eq_min, List.length_take, List.length_drop]
      omega
    · simp only [CurlReadCallback, copySize_eq_min]
      omega
  · intro hzero
    constructor
    · rw [hcopy, hzero]
      simp
    · have h1 : (CurlReadCallback buffer size nmemb u).2.1.data = u.data := by
        simp only [CurlReadCallback, copySize_eq_min, hzero]
        omega
      have h2 : (CurlReadCallback buffer size nmemb u).2.1.length = u.length := by
        simp only [CurlReadCallback, copySize_eq_min, hzero]
        omega
      obtain ⟨d, l⟩ := u
      simp only [CurlReadCallback, copySize_eq_min] at h1 h2 ⊢
      rw [UploadObject.mk.injEq]
      exact ⟨h1, h2⟩
  · exact runReadCallback_total buffer reqs ⟨0, buffer.length⟩
  · intro hcover
    constructor
    · rw [runReadCallback_total]
      simp
      omega
    · rw [runReadCallback_length]
      simp
      omega

/-- Witness for C7 at concrete inputs: a 3-byte buffer drained by requests
of 2 then 5 bytes. -/
theorem C7_read_callback_witness :
    (0 : Nat) + 3 = (str "abc").length ∧
    ReadCallbackBehaviour (str "abc") [(2, 1), (5, 1)] 1 1 ⟨0, 3⟩ :=
  ⟨by decide, C7_read_callback (str "abc") [(2, 1), (5, 1)] 1 1 ⟨0, 3⟩ (by decide)⟩

/-- C9: Round-trip: for a response object with no output sink attached, for
every sequence of chunks delivered to the body callback (any chunking, any
observed status codes), the final body equals the prior body followed by the
concatenation of all delivered chunks in delivery order, and no sink ever
receives a byte. -/
theorem C9_body_concatenation (ds : List (List Char × Int)) (r : Response)
    (h : r.file = none) :
    (runWrites ds r).body = r.body ++ (ds.map Prod.fst).flatten ∧
    (runWrites ds r).file = none :=
  runWrites_no_sink ds r h

/-- Witness for C9 at concrete inputs: chunks "he", "llo" delivered at
statuses 200 and 404 to a fresh response concatenate to "hello". -/
theorem C9_body_concatenation_witness :
    newResponse.file = none ∧
    (runWrites [(str "he", 200), (str "llo", 404)] newResponse).body =
      newResponse.body ++ ([(str "he", 200), (str "llo", 404)].map Prod.fst).flatten ∧
    (runWrites [(str "he", 200), (str "llo", 404)] newResponse).file = none :=
  ⟨by decide,
   (C9_body_concatenation [(str "he", 200), (str "llo", 404)] newResponse (by decide)).1,
   (C9_body_concatenation [(str "he", 200), (str "llo", 404)] newResponse (by decide)).2⟩

end RestClient

namespace RestClient

/-- C10: After any invocation of SetAuth(username, password) — including
with both arguments empty — the process-wide credential string equals
username + ":" + password and is always non-empty (length at least 1), so a
subsequent call (with handle allocation succeeding) applies the basic-auth
engine options CURLOPT_HTTPAUTH and CURLOPT_USERPWD; only ClearAuth returns
the credential to the empty no-authentication state, after which no
basic-auth option is applied. -/
theorem C10_set_auth_always_nonempty (username password s t : List Char)
    (req : Request) (r : Response) :
    SetAuth username password s = username ++ str ":" ++ password ∧
    0 < (SetAuth username password s).length ∧
    (CurlOption.httpauth, OptValue.num 1) ∈
      (CurlSharedEasyInit (SetAuth username password s) true req r).opts ∧
    (CurlOption.userpwd, OptValue.strval (SetAuth username password s)) ∈
      (CurlSharedEasyInit (SetAuth username password s) true req r).opts ∧
    ClearAuth t = [] ∧
    (∀ w, (CurlOption.httpauth, w) ∉ (CurlSharedEasyInit (ClearAuth t) true req r).opts) := by
  have hlen : 0 < (SetAuth username password s).length := by
    simp [SetAuth, str]
  refine ⟨by simp [SetAuth], hlen, ?_, ?_, rfl, ?_⟩
  · simp only [CurlSharedEasyInit, if_pos rfl, if_pos hlen]
    simp
  · simp only [CurlSharedEasyInit, if_pos rfl, if_pos hlen]
    simp
  · intro w
    simp only [CurlSharedEasyInit, ClearAuth, List.length_nil, if_pos rfl]
    simp only [gt_iff_lt, lt_self_iff_false, if_false, List.nil_append]
    intro hmem
    rcases List.mem_append.mp hmem with hmem | hmem
    · split at hmem
      · rcases List.mem_append.mp hmem with hmem | hmem
        · simp at hmem
        · split at hmem <;> simp at hmem
      · simp at hmem
    · simp at hmem

end RestClient

namespace RestClient

/-- C8: For every header mapping H given to a call with handle allocation
succeeding: if H contains no User-Agent key, the configured engine option
set includes CURLOPT_USERAGENT with the library's default user-agent string;
if H does contain a User-Agent key, no CURLOPT_USERAGENT option is set at
all, and the caller's value is preserved in the header list handed to the
engine via CURLOPT_HTTPHEADER. -/
theorem C8_user_agent_default (up : List Char) (req : Request) (r : Response) :
    (mapFind req.headers uaKey = none →
      (CurlOption.useragent, OptValue.strval kDefaultUserAgent) ∈
        (CurlSharedEasyInit up true req r).opts) ∧
    (∀ v, mapFind req.headers uaKey = some v →
      (∀ w, (CurlOption.useragent, w) ∉ (CurlSharedEasyInit up true req r).opts) ∧
      (CurlOption.httpheader, OptValue.strlist (headerChunkOf req.headers)) ∈
        (CurlSharedEasyInit up true req r).opts ∧
      (uaKey ++ str ": " ++ v) ∈ headerChunkOf req.headers) := by
  constructor
  · intro hnone
    simp only [CurlSharedEasyInit, if_pos rfl]
    by_cases hlen : req.headers.length > 0
    · simp only [if_pos hlen, if_pos hnone]
      refine List.mem_append_left _ (List.mem_append_right _ ?_)
      simp
    · simp only [if_neg hlen]
      refine List.mem_append_left _ (List.mem_append_right _ ?_)
      simp
  · intro v hsome
    have hlen : req.headers.length > 0 := length_pos_of_mapFind req.headers uaKey v hsome
    have hne : ¬ mapFind req.headers uaKey = none := by simp [hsome]
    refine ⟨?_, ?_, ?_⟩
    · intro w hmem
      simp only [CurlSharedEasyInit, if_pos rfl, if_pos hlen, if_neg hne,
        List.append_nil] at hmem
      rcases List.mem_append.mp hmem with hmem | hmem
      · rcases List.mem_append.mp hmem with hmem | hmem
        · split at hmem <;> simp at hmem
        · simp at hmem
      · simp at hmem
    · simp only [CurlSharedEasyInit, if_pos rfl, if_pos hlen, if_neg hne,
        List.append_nil]
      refine List.mem_append_left _ (List.mem_append_right _ ?_)
      simp
    · exact mem_headerChunkOf req.headers uaKey v (mem_of_mapFind req.headers uaKey v hsome)

/-- Witness for C8 at concrete inputs: a map without User-Agent gets the
default installed; a map carrying User-Agent keeps the caller's value and no
CURLOPT_USERAGENT option appears. -/
theorem C8_user_agent_default_witness :
    mapFind ([(str "Accept", str "text/plain")] : headermap) uaKey = none ∧
    (CurlOption.useragent, OptValue.strval kDefaultUserAgent) ∈
      (CurlSharedEasyInit [] true
        ⟨[(str "Accept", str "text/plain")], str "http://x"⟩ newResponse).opts ∧
    mapFind ([(uaKey, str "client/7")] : headermap) uaKey = some (str "client/7") ∧
    (∀ w, (CurlOption.useragent, w) ∉
      (CurlSharedEasyInit [] true
        ⟨[(uaKey, str "client/7")], str "http://x"⟩ newResponse).opts) ∧
    (uaKey ++ str ": " ++ str "client/7") ∈
      headerChunkOf ([(uaKey, str "client/7")] : headermap) :=
  ⟨by decide,
   (C8_user_agent_default []
     ⟨[(str "Accept", str "text/plain")], str "http://x"⟩ newResponse).1 (by decide),
   by decide,
   ((C8_user_agent_default []
     ⟨[(uaKey, str "client/7")], str "http://x"⟩ newResponse).2
       (str "client/7") (by decide)).1,
   ((C8_user_agent_default []
     ⟨[(uaKey, str "client/7")], str "http://x"⟩ newResponse).2
       (str "client/7") (by decide)).2.2⟩

end RestClient

namespace RestClient

/-- The transfer callbacks never change the status code. -/
theorem performTransfer_code (e : Engine) (r : Response) :
    (performTransfer e r).code = r.code :=
  (performTransfer_preserves e r).1

/-- The transfer callbacks never change the easy-handle field. -/
theorem performTransfer_curl (e : Engine) (r : Response) :
    (performTransfer e r).curl = r.curl :=
  (performTransfer_preserves e r).2.1

/-- The transfer callbacks never change the header-chunk field. -/
theorem performTransfer_headerChunk (e : Engine) (r : Response) :
    (performTransfer e r).headerChunk = r.headerChunk :=
  (performTransfer_preserves e r).2.2

/-- C6: For every call to Get or Post in which the blocking transfer returns
any non-success engine result code, the returned response has status code -1
and body equal to the fixed string "Failed to query.", and the protocol
status code is not read (the failure conclusion holds for every value of the
engine's status-code field, which is universally quantified here); on
transport success, the engine's numeric status is read back into the
response's status code. -/
theorem C6_transport_failure_sentinel (up : List Char) (e : Engine) (req : Request)
    (of tc : Bool) (form : List (List Char × FormItem)) (hinit : e.initOk = true) :
    (e.performResult ≠ 0 →
      (Get up e req of tc).response.code = -1 ∧
      (Get up e req of tc).response.body = str "Failed to query." ∧
      (Post up e req form).response.code = -1 ∧
      (Post up e req form).response.body = str "Failed to query.") ∧
    (e.performResult = 0 →
      (Get up e req of tc).response.code = e.httpCode ∧
      (Post up e req form).response.code = e.httpCode) := by
  obtain ⟨iok, pr, hc, hl, ds⟩ := e
  simp only at hinit
  subst hinit
  constructor
  · intro hp
    simp only at hp
    refine ⟨?_, ?_, ?_, ?_⟩ <;>
      simp [Get, Post, CurlSharedEasyInit, CurlSharedEasyCleanUp, hp]
  · intro hp
    simp only at hp
    subst hp
    constructor <;>
      simp [Get, Post, CurlSharedEasyInit, CurlSharedEasyCleanUp]

/-- Witness for C6 at concrete inputs: a failing transfer yields code -1 and
the fixed body; a successful transfer reads back status 200. -/
theorem C6_transport_failure_sentinel_witness :
    ((⟨true, 7, 200, [], []⟩ : Engine).initOk = true ∧
      (Get [] ⟨true, 7, 200, [], []⟩ ⟨[], str "http://example.test/ok"⟩ false false).response.code = -1 ∧
      (Get [] ⟨true, 7, 200, [], []⟩ ⟨[], str "http://example.test/ok"⟩ false false).response.body =
        str "Failed to query.") ∧
    ((⟨true, 0, 200, [], []⟩ : Engine).initOk = true ∧
      (Get [] ⟨true, 0, 200, [], []⟩ ⟨[], str "http://example.test/ok"⟩ false false).response.code = 200) :=
  ⟨⟨by decide,
    ((C6_transport_failure_sentinel [] ⟨true, 7, 200, [], []⟩
      ⟨[], str "http://example.test/ok"⟩ false false [] (by decide)).1 (by decide)).1,
    ((C6_transport_failure_sentinel [] ⟨true, 7, 200, [], []⟩
      ⟨[], str "http://example.test/ok"⟩ false false [] (by decide)).1 (by decide)).2.1⟩,
   ⟨by decide,
    ((C6_transport_failure_sentinel [] ⟨true, 0, 200, [], []⟩
      ⟨[], str "http://example.test/ok"⟩ false false [] (by decide)).2 (by decide)).1⟩⟩

end RestClient

namespace RestClient

/-- C1 (divergence): the header list built from the request's header map is
never freed.  `CurlSharedEasyInit` keeps the `curl_slist` only in its local
`headerChunk` variable and never assigns `response.headerChunk`, so the free
branch of `CurlSharedEasyCleanUp` never fires: on every Get and Post call
`curl_slist_free_all` runs zero times (not exactly once), while the two
handle fields are indeed null on return.  The final conjunct evaluates a
call whose request carries a header, showing a non-empty header list was
built and leaked. -/
theorem C1_header_list_never_freed (up : List Char) (e : Engine) (req : Request)
    (of tc : Bool) (form : List (List Char × FormItem)) :
    (Get up e req of tc).stats.slistFreeCalls = 0 ∧
    (Post up e req form).stats.slistFreeCalls = 0 ∧
    (Get up e req of tc).response.curl = false ∧
    (Get up e req of tc).response.headerChunk = false ∧
    (Post up e req form).response.curl = false ∧
    (Post up e req form).response.headerChunk = false ∧
    (Get (str "") ⟨true, 0, 200, [], []⟩
      ⟨[(str "Accept", str "text/plain")], str "http://example.test/ok"⟩
      false false).leakedHeaderChunk = [str "Accept: text/plain"] := by
  obtain ⟨iok, pr, hc, hl, ds⟩ := e
  cases iok with
  | false =>
      refine ⟨?_, ?_, ?_, ?_, ?_, ?_, by decide⟩ <;>
        simp [Get, Post, CurlSharedEasyInit, newResponse]
  | true =>
      refine ⟨?_, ?_, ?_, ?_, ?_, ?_, by decide⟩ <;>
        cases of <;>
        simp [Get, Post, CurlSharedEasyInit, CurlSharedEasyCleanUp,
          performTransfer_curl, performTransfer_headerChunk, newResponse] <;>
        split <;>
        simp [performTransfer_curl, performTransfer_headerChunk]

end RestClient

namespace RestClient

/-- C2 counterexample: when `curl_easy_init` fails, `Get` returns the
default-constructed response whose status code is 0, not the failure
sentinel -1 as the claim states. -/
theorem C2_counterexample :
    (Get [] ⟨false, 0, 200, [], []⟩
      ⟨[], str "http://example.test/ok"⟩ false false).response.code = 0 ∧
    ¬ (Get [] ⟨false, 0, 200, [], []⟩
      ⟨[], str "http://example.test/ok"⟩ false false).response.code = -1 := by
  decide

/-- C2 (amended): if allocation of the engine handle fails, Get and Post
return immediately the default-constructed response — status code 0 (the
unset value), not the sentinel -1 — with no transfer performed and no
cleanup run; and this is the only early-exit path: whenever allocation
succeeds, the easy handle is released exactly once by the unconditional
cleanup. -/
theorem C2_alloc_failure_early_exit (up : List Char) (e : Engine) (req : Request)
    (of tc : Bool) (form : List (List Char × FormItem)) :
    (e.initOk = false →
      (Get up e req of tc).response = newResponse ∧
      (Post up e req form).response = newResponse ∧
      (Get up e req of tc).stats.easyCleanupCalls = 0 ∧
      (Post up e req form).stats.easyCleanupCalls = 0) ∧
    (e.initOk = true →
      (Get up e req of tc).stats.easyCleanupCalls = 1 ∧
      (Post up e req form).stats.easyCleanupCalls = 1) := by
  obtain ⟨iok, pr, hc, hl, ds⟩ := e
  constructor
  · intro h
    simp only at h
    subst h
    refine ⟨?_, ?_, ?_, ?_⟩ <;>
      simp [Get, Post, CurlSharedEasyInit]
  · intro h
    simp only at h
    subst h
    constructor <;>
      cases of <;>
      simp [Get, Post, CurlSharedEasyInit, CurlSharedEasyCleanUp,
        performTransfer_curl, newResponse] <;>
      split <;>
      simp [performTransfer_curl]

/-- Witness for C2 at concrete inputs: allocation failure returns the
default response with no cleanup; allocation success releases the easy
handle exactly once. -/
theorem C2_alloc_failure_early_exit_witness :
    ((Get [] ⟨false, 0, 200, [], []⟩ ⟨[], str "http://x"⟩ false false).response =
      newResponse ∧
      (Get [] ⟨false, 0, 200, [], []⟩ ⟨[], str "http://x"⟩ false false).stats.easyCleanupCalls = 0) ∧
    (Get [] ⟨true, 0, 200, [], []⟩ ⟨[], str "http://x"⟩ false false).stats.easyCleanupCalls = 1 :=
  ⟨⟨((C2_alloc_failure_early_exit [] ⟨false, 0, 200, [], []⟩
      ⟨[], str "http://x"⟩ false false []).1 (by decide)).1,
    ((C2_alloc_failure_early_exit [] ⟨false, 0, 200, [], []⟩
      ⟨[], str "http://x"⟩ false false []).1 (by decide)).2.2.1⟩,
   ((C2_alloc_failure_early_exit [] ⟨true, 0, 200, [], []⟩
      ⟨[], str "http://x"⟩ false false []).2 (by decide)).1⟩

end RestClient

namespace RestClient

/-- C3 counterexample: with an output sink attached, a chunk delivered while
the observed status code is 404 is appended to the body, so body and sink
population are not mutually exclusive: the call returns a response with the
sink still attached and a non-empty body. -/
theorem C3_counterexample :
    (Get [] ⟨true, 0, 404, [], [(str "x", 404)]⟩
      ⟨[], str "http://example.test/ok"⟩ true false).response.file.isSome = true ∧
    (Get [] ⟨true, 0, 404, [], [(str "x", 404)]⟩
      ⟨[], str "http://example.test/ok"⟩ true false).response.body ≠ [] := by
  decide

/-- During the transfer, with a sink attached and every chunk delivered at
observed status 200, the body is untouched and the sink stays attached. -/
theorem performTransfer_sink_ok (e : Engine) (r : Response)
    (hf : r.file.isSome = true) (hcodes : ∀ p ∈ e.deliveries, p.2 = 200) :
    (performTransfer e r).body = r.body ∧
    (performTransfer e r).file.isSome = true := by
  unfold performTransfer
  have hh := runHeaderLines_preserves e.headerLines r
  have hw := runWrites_sink_all200 e.deliveries (runHeaderLines e.headerLines r)
    (by rw [hh.2.1]; exact hf) hcodes
  exact ⟨hw.1.trans hh.1, hw.2⟩

/-- C3 (amended): when an output sink is attached, the body stays empty
provided every chunk is delivered while the observed status code is 200 and
the blocking transfer succeeds; a chunk delivered at a non-200 status is
appended to the body instead, and a transport failure overwrites the body
with the fixed failure string, so mutual exclusivity holds only on that
all-200 success path. -/
theorem C3_sink_body_exclusive_on_success (up : List Char) (e : Engine)
    (req : Request) (tc : Bool) (hinit : e.initOk = true)
    (hperf : e.performResult = 0) (hcodes : ∀ p ∈ e.deliveries, p.2 = 200) :
    (Get up e req true tc).response.body = [] ∧
    (Get up e req true tc).response.file.isSome = true := by
  obtain ⟨iok, pr, hc, hl, ds⟩ := e
  simp only at hinit hperf hcodes
  subst hinit
  subst hperf
  have key := performTransfer_sink_ok ⟨true, 0, hc, hl, ds⟩
    { code := 0, body := [], headers := [], file := some [], curl := true,
      headerChunk := false } rfl hcodes
  constructor
  · simp [Get, CurlSharedEasyInit, CurlSharedEasyCleanUp, newResponse, key.1]
  · simp [Get, CurlSharedEasyInit, CurlSharedEasyCleanUp, newResponse, key.2]

/-- Witness for C3 (amended) at concrete inputs: one 200-status chunk into
an attached sink leaves the body empty and the sink attached. -/
theorem C3_sink_body_exclusive_on_success_witness :
    ((⟨true, 0, 200, [], [(str "ab", 200)]⟩ : Engine).initOk = true ∧
      (⟨true, 0, 200, [], [(str "ab", 200)]⟩ : Engine).performResult = 0) ∧
    (Get [] ⟨true, 0, 200, [], [(str "ab", 200)]⟩
      ⟨[], str "http://example.test/ok"⟩ true false).response.body = [] ∧
    (Get [] ⟨true, 0, 200, [], [(str "ab", 200)]⟩
      ⟨[], str "http://example.test/ok"⟩ true false).response.file.isSome = true :=
  ⟨⟨by decide, by decide⟩,
   (C3_sink_body_exclusive_on_success [] ⟨true, 0, 200, [], [(str "ab", 200)]⟩
     ⟨[], str "http://example.test/ok"⟩ false (by decide) (by decide)
     (by decide)).1,
   (C3_sink_body_exclusive_on_success [] ⟨true, 0, 200, [], [(str "ab", 200)]⟩
     ⟨[], str "http://example.test/ok"⟩ false (by decide) (by decide)
     (by decide)).2⟩

end RestClient
